import Mathlib

/-!
Shallow embedding of the token-passthrough gateway, translated from
`token_validator.py`, `backend_client.py` and `tools/backend_query_tool.py`.

JSON values decoded by the Python json machinery are modelled by the
`Json` type; decoded mappings are association lists in insertion order.
Network activity is modelled by passing the outcome of each network call
as an explicit oracle value; functions that may touch the network return,
next to their result, a boolean recording whether the network call was
actually issued.  Python exceptions are modelled by `Except String`,
carrying the message of the raised exception.
-/

namespace TokenPassthrough

/-- JSON values as decoded from a response body. -/
inductive Json : Type where
  | null : Json
  | bool (b : Bool) : Json
  | num (n : Int) : Json
  | str (s : String) : Json
  | arr (xs : List Json) : Json
  | obj (kvs : List (String × Json)) : Json

/-- A decoded JSON object, as passed around for introspection results. -/
abbrev TokenInfo : Type := List (String × Json)

/-- Python `d.get(k, default)` on a decoded mapping. -/
def dictGetD (t : TokenInfo) (k : String) (d : Json) : Json :=
  match t.lookup k with
  | some v => v
  | none => d

/-- Python `d.get(k)` on a decoded mapping (default `None`). -/
def dictGet (t : TokenInfo) (k : String) : Json :=
  dictGetD t k Json.null

/-- Python truthiness of a decoded JSON value. -/
def Json.truthy : Json → Bool
  | Json.null => false
  | Json.bool b => b
  | Json.num n => n != 0
  | Json.str s => s != ""
  | Json.arr xs => !xs.isEmpty
  | Json.obj kvs => !kvs.isEmpty

/-- Python `a or b`: `a` when truthy, else `b`. -/
def pyOr (a b : Json) : Json :=
  if a.truthy then a else b

/-- Whether the first character list starts the second one. -/
def listLeads : List Char → List Char → Bool
  | [], _ => true
  | _ :: _, [] => false
  | a :: as, b :: bs => a == b && listLeads as bs

/-- Whether the first character list occurs inside the second one
(Python substring membership `needle in hay`). -/
def listWithin (needle : List Char) : List Char → Bool
  | [] => needle.isEmpty
  | b :: bs => listLeads needle (b :: bs) || listWithin needle bs

/-- Message of the TypeError raised by Python `x in v` on a value that
supports no membership test. -/
def typeErrorNotContainer : String := "TypeError: argument is not a container"

/-- Message of the TypeError raised by Python `v[k]` with a string key on
a non-mapping value. -/
def typeErrorBadSubscript : String := "TypeError: value is not subscriptable by a string key"

/-- Message of the TypeError raised by Python `list.extend(v)` on a
non-iterable value. -/
def typeErrorNotIterable : String := "TypeError: object is not iterable"

/-- Message of a Python KeyError. -/
def keyErrorMsg : String := "KeyError"

/-- Python `k in v` for a string `k` and a decoded JSON value `v`:
key membership on mappings, element membership on lists, substring test
on strings, TypeError otherwise. -/
def pyContains (k : String) : Json → Except String Bool
  | Json.obj kvs => Except.ok (kvs.lookup k).isSome
  | Json.arr xs =>
      Except.ok (xs.any fun x =>
        match x with
        | Json.str s => s == k
        | _ => false)
  | Json.str s => Except.ok (listWithin k.data s.data)
  | _ => Except.error typeErrorNotContainer

/-- Python `v[k]` for a string key `k` on a decoded JSON value `v`. -/
def pySubscript (j : Json) (k : String) : Except String Json :=
  match j with
  | Json.obj kvs =>
      match kvs.lookup k with
      | some v => Except.ok v
      | none => Except.error keyErrorMsg
  | _ => Except.error typeErrorBadSubscript

/-- Python iteration over a decoded JSON value, as consumed by
`list.extend`: lists yield their elements, strings their characters,
mappings their keys; other values raise a TypeError. -/
def pyIterate : Json → Except String (List Json)
  | Json.arr xs => Except.ok xs
  | Json.str s => Except.ok (s.data.map fun c => Json.str (String.mk [c]))
  | Json.obj kvs => Except.ok (kvs.map fun kv => Json.str kv.1)
  | _ => Except.error typeErrorNotIterable

mutual

/-- Python repr of a decoded JSON value, as produced inside str() of a
container. -/
def pyRepr : Json → String
  | Json.null => "None"
  | Json.bool true => "True"
  | Json.bool false => "False"
  | Json.num n => toString n
  | Json.str s => "\x27" ++ s ++ "\x27"
  | Json.arr xs => "[" ++ pyReprElems xs ++ "]"
  | Json.obj kvs => "\x7b" ++ pyReprPairs kvs ++ "\x7d"

def pyReprElems : List Json → String
  | [] => ""
  | [x] => pyRepr x
  | x :: y :: xs => pyRepr x ++ ", " ++ pyReprElems (y :: xs)

def pyReprPairs : List (String × Json) → String
  | [] => ""
  | [kv] => "\x27" ++ kv.1 ++ "\x27: " ++ pyRepr kv.2
  | kv :: l :: kvs => "\x27" ++ kv.1 ++ "\x27: " ++ pyRepr kv.2 ++ ", " ++ pyReprPairs (l :: kvs)

end

/-- Python str() of a decoded JSON value, as interpolated by an f-string:
a string renders as itself, everything else as its repr. -/
def pyStr (j : Json) : String :=
  match j with
  | Json.str s => s
  | _ => pyRepr j

/-- The normalized user record built by extract_user_info.  Field values
are the raw decoded JSON values placed in the returned dictionary. -/
structure UserInfo : Type where
  username : Json
  email : Json
  user_id : Json
  roles : List Json
  groups : List Json

/-- Lines 94 to 99 of token_validator.py: the or-chain selecting the
username claim. -/
def extractUsername (t : TokenInfo) : Json :=
  pyOr (dictGet t "preferred_username")
    (pyOr (dictGet t "username")
      (pyOr (dictGet t "email") (dictGet t "sub")))

/-- Lines 104 to 106 of token_validator.py: the realm_access branch of
role aggregation, with the Python membership test, subscript and
list.extend faithfully able to raise. -/
def realmRolesStep (t : TokenInfo) : Except String (List Json) :=
  match t.lookup "realm_access" with
  | none => Except.ok []
  | some ra =>
      match pyContains "roles" ra with
      | Except.error m => Except.error m
      | Except.ok false => Except.ok []
      | Except.ok true =>
          match pySubscript ra "roles" with
          | Except.error m => Except.error m
          | Except.ok rv => pyIterate rv

/-- Lines 109 to 111 of token_validator.py: the top-level roles claim is
appended only when it is a list. -/
def topRolesStep (t : TokenInfo) : List Json :=
  match t.lookup "roles" with
  | some (Json.arr xs) => xs
  | _ => []

/-- Lines 114 to 117 of token_validator.py: groups claim when it is a
list, else the empty list. -/
def groupsStep (t : TokenInfo) : List Json :=
  match t.lookup "groups" with
  | some (Json.arr xs) => xs
  | _ => []

/-- token_validator.py extract_user_info.  The username or-chain is pure;
the realm_access branch may raise a TypeError, which propagates to the
caller. -/
def extract_user_info (t : TokenInfo) : Except String UserInfo :=
  match realmRolesStep t with
  | Except.error m => Except.error m
  | Except.ok realmRoles =>
      Except.ok
        ⟨extractUsername t, dictGet t "email", dictGet t "sub",
          realmRoles ++ topRolesStep t, groupsStep t⟩

/-- The configuration consumed by validate_token_with_keycloak. -/
structure ValidatorConfig : Type where
  SSO_INTROSPECTION_URL : String
  SSO_CLIENT_ID : String
  SSO_CLIENT_SECRET : String

/-- Outcome of the introspection network exchange, as observed at the
except clauses of validate_token_with_keycloak: an httpx.HTTPError (from
the post itself or from raise_for_status on a non-2xx status), a body
that fails JSON decoding, or a decoded 2xx JSON body. -/
inductive NetResult : Type where
  | httpError (msg : String) : NetResult
  | jsonDecodeError (msg : String) : NetResult
  | response (body : Json) : NetResult

/-- Message of the AttributeError raised by calling .get on a decoded
non-mapping body. -/
def attributeErrorMsg : String := "object has no attribute get"

/-- token_validator.py validate_token_with_keycloak.  The boolean
records whether the introspection network request was issued.  The
TokenValidationError raised on an inactive token inside the try block is
itself caught by the final except clause and re-wrapped, so the message
that escapes is the wrapped one. -/
def validate_token_with_keycloak (access_token : String) (cfg : ValidatorConfig)
    (net : NetResult) : Except String TokenInfo × Bool :=
  if access_token = "" then (Except.error "Access token is required", false)
  else if cfg.SSO_INTROSPECTION_URL = "" then
    (Except.error "SSO_INTROSPECTION_URL not configured", false)
  else
    match net with
    | NetResult.httpError m => (Except.error ("Failed to validate token: " ++ m), true)
    | NetResult.jsonDecodeError m => (Except.error ("Token validation error: " ++ m), true)
    | NetResult.response body =>
        match body with
        | Json.obj kvs =>
            if (dictGetD kvs "active" (Json.bool false)).truthy then (Except.ok kvs, true)
            else (Except.error "Token validation error: Token is not active or has expired", true)
        | _ => (Except.error ("Token validation error: " ++ attributeErrorMsg), true)

/-- backend_client.py BackendServiceClient: base_url is stored with all
trailing slashes stripped; timeout defaults to 30 time-units. -/
structure BackendServiceClient : Type where
  base_url : String
  timeout : Nat

/-- Python str.lstrip applied with the single character slash. -/
def lstripSlashes (s : String) : String :=
  String.mk (s.data.dropWhile fun c => c == '/')

/-- Python str.rstrip applied with the single character slash. -/
def rstripSlashes (s : String) : String :=
  String.mk ((s.data.reverse.dropWhile fun c => c == '/').reverse)

/-- backend_client.py BackendServiceClient.__init__ with the default
timeout. -/
def BackendServiceClient.init (base_url : String) : BackendServiceClient :=
  ⟨rstripSlashes base_url, 30⟩

/-- Line 57 of backend_client.py: the request URL built inside
call_service. -/
def BackendServiceClient.callUrl (self : BackendServiceClient) (endpoint : String) : String :=
  self.base_url ++ "/" ++ lstripSlashes endpoint

/-- An HTTP response as observed by call_service: its status code, its
raw body text, and the decoded JSON body when response.json() succeeds. -/
structure HttpResponse : Type where
  status_code : Nat
  text : String
  jsonBody : Option Json

/-- Outcome of the backend network exchange, as observed at the except
clauses of call_service. -/
inductive BackendNet : Type where
  | timeout : BackendNet
  | requestError (msg : String) : BackendNet
  | response (r : HttpResponse) : BackendNet

/-- Line 86 to 91 of backend_client.py: the message of the generic
at-least-400 failure, carrying the status code and the str() of the
decoded JSON body, or the raw body text when decoding fails. -/
def genericErrorMsg (status : Nat) (body : String) : String :=
  "Backend service error: " ++ (toString status ++ (" - " ++ body))

/-- backend_client.py BackendServiceClient.call_service.  The boolean
records whether the backend network request was issued. -/
def call_service (self : BackendServiceClient) (access_token endpoint : String)
    (net : BackendNet) : Except String Json × Bool :=
  if access_token = "" then (Except.error "Access token is required", false)
  else
    match net with
    | BackendNet.timeout =>
        (Except.error ("Backend service timeout: " ++ self.callUrl endpoint), true)
    | BackendNet.requestError m =>
        (Except.error ("Backend service request failed: " ++ m), true)
    | BackendNet.response r =>
        if r.status_code = 401 then
          (Except.error "Backend service authentication failed - token may be invalid", true)
        else if r.status_code = 403 then
          (Except.error "Backend service authorization failed - insufficient permissions", true)
        else if 400 ≤ r.status_code then
          (Except.error (genericErrorMsg r.status_code
            (match r.jsonBody with
             | some j => pyStr j
             | none => r.text)), true)
        else
          match r.jsonBody with
          | some j => (Except.ok j, true)
          | none =>
              (Except.ok (Json.obj [("content", Json.str r.text),
                ("status_code", Json.num (r.status_code : Int))]), true)

/-- The orchestrator result envelope.  `error` is the error-kind entry
when present; `user` distinguishes an absent key (`none`) from a key
bound to None (`some none`) and from a bound identity (`some (some u)`);
`backend_response` is the backend payload entry when present. -/
structure ResultEnvelope : Type where
  status : String
  error : Option String
  message : String
  user : Option (Option UserInfo)
  backend_response : Option Json

/-- The oracle outcomes of the two network exchanges an orchestrated
request can perform. -/
structure QueryEnv : Type where
  introspectionNet : NetResult
  backendNet : BackendNet

/-- tools/backend_query_tool.py query_backend_service.  The boolean
records whether a backend network request was issued.  In the
backend-failure handler the Python locals test always finds user_info
bound, because a BackendServiceError can only arise from the
call_service call, which runs after user_info is assigned. -/
def query_backend_service (access_token backend_url endpoint : String)
    (cfg : ValidatorConfig) (env : QueryEnv) : ResultEnvelope × Bool :=
  match (validate_token_with_keycloak access_token cfg env.introspectionNet).1 with
  | Except.error m =>
      (⟨"error", some "token_validation_failed", m, none, none⟩, false)
  | Except.ok token_info =>
      match extract_user_info token_info with
      | Except.error m =>
          (⟨"error", some "unexpected_error", m, none, none⟩, false)
      | Except.ok user_info =>
          match call_service (BackendServiceClient.init backend_url) access_token endpoint
              env.backendNet with
          | (Except.error m, issued) =>
              (⟨"error", some "backend_service_failed", m, some (some user_info), none⟩, issued)
          | (Except.ok r, issued) =>
              (⟨"success", none,
                "Successfully called backend service as " ++ pyStr user_info.username,
                some (some user_info), some r⟩, issued)

/-- Modelled from the spec wording of section 4.2: base URL with its
trailing slash stripped, joined by one slash to the endpoint with its
leading slash stripped. -/
def joinUrlPerSpec (base endpoint : String) : String :=
  rstripSlashes base ++ "/" ++ lstripSlashes endpoint

/-- Modelled from the spec wording of section 3: first non-empty of
preferred_username, username, email, sub in that priority order, amended
so that when none of them is truthy the raw sub claim value (null when
absent) is produced. -/
def usernamePerSpecAmended (t : TokenInfo) : Json :=
  if (dictGet t "preferred_username").truthy then dictGet t "preferred_username"
  else if (dictGet t "username").truthy then dictGet t "username"
  else if (dictGet t "email").truthy then dictGet t "email"
  else dictGet t "sub"

/-- Modelled from the spec wording of section 4.1: concatenate
realm_access.roles, when realm_access is a mapping holding a roles list,
with the top-level roles claim when it is a list. -/
def rolesPerSpec (t : TokenInfo) : List Json :=
  (match t.lookup "realm_access" with
   | some (Json.obj kvs) =>
       match kvs.lookup "roles" with
       | some (Json.arr xs) => xs
       | _ => []
   | _ => []) ++
  (match t.lookup "roles" with
   | some (Json.arr xs) => xs
   | _ => [])

/-- Modelled from the spec wording of section 4.1: groups claim when it
is a list, else the empty sequence. -/
def groupsPerSpec (t : TokenInfo) : List Json :=
  match t.lookup "groups" with
  | some (Json.arr xs) => xs
  | _ => []

/-- The well-formedness condition under which extract_user_info cannot
raise: realm_access, when present, is a mapping whose roles entry, when
present, is a list. -/
def goodRealmAccess (t : TokenInfo) : Bool :=
  match t.lookup "realm_access" with
  | none => true
  | some (Json.obj kvs) =>
      match kvs.lookup "roles" with
      | none => true
      | some (Json.arr _) => true
      | some _ => false
  | some _ => false

/-- A concrete validator configuration used by witnesses. -/
def cfgW : ValidatorConfig := ⟨"http://keycloak", "cid", "secret"⟩

/-- A concrete oracle used by witnesses: validation succeeds and the
backend answers with status 500 and a non-JSON body. -/
def envW : QueryEnv :=
  ⟨NetResult.response (Json.obj [("active", Json.bool true)]),
    BackendNet.response ⟨500, "boom", none⟩⟩

theorem strDataAppend : ∀ (a b : String), (a ++ b).data = a.data ++ b.data
  | ⟨_⟩, ⟨_⟩ => rfl

theorem takeAppendOfLe (n : Nat) (l1 l2 : List Char) (h : n ≤ l1.length) :
    (l1 ++ l2).take n = l1.take n := by
  induction l1 generalizing n with
  | nil =>
      have hn : n = 0 := Nat.le_zero.mp h
      subst hn
      simp
  | cons a as ih =>
      cases n with
      | zero => rfl
      | succ m =>
          simp only [List.cons_append, List.take_succ_cons]
          rw [ih m (Nat.succ_le_succ_iff.mp h)]

theorem appendNeOfTakeNe (p s : String) (n : Nat) (hn : n ≤ p.data.length)
    (hne : p.data.take n ≠ s.data.take n) (m : String) : p ++ m ≠ s := by
  intro h
  apply hne
  have hd : (p ++ m).data = s.data := congrArg String.data h
  rw [strDataAppend] at hd
  calc p.data.take n = (p.data ++ m.data).take n := (takeAppendOfLe n p.data m.data hn).symm
    _ = s.data.take n := by rw [hd]

theorem httpErrorMsgNeInactive (m : String) :
    "Failed to validate token: " ++ m ≠
      "Token validation error: Token is not active or has expired" :=
  appendNeOfTakeNe _ _ 1 (by decide) (by decide) m

theorem authMsgNeGeneric (st : Nat) (body : String) :
    "Backend service authentication failed - token may be invalid" ≠
      genericErrorMsg st body := by
  intro h
  exact appendNeOfTakeNe "Backend service error: "
    "Backend service authentication failed - token may be invalid" 17 (by decide) (by decide)
    (toString st ++ (" - " ++ body)) h.symm

theorem realmRolesStepOkOfGood (t : TokenInfo) (h : goodRealmAccess t = true) :
    realmRolesStep t = Except.ok
      (match t.lookup "realm_access" with
       | some (Json.obj kvs) =>
           match kvs.lookup "roles" with
           | some (Json.arr xs) => xs
           | _ => []
       | _ => []) := by
  unfold goodRealmAccess at h
  unfold realmRolesStep
  cases hra : t.lookup "realm_access" with
  | none => rfl
  | some ra =>
      rw [hra] at h
      cases ra with
      | obj kvs =>
          have h2 : (match kvs.lookup "roles" with
            | none => true
            | some (Json.arr _) => true
            | some _ => false) = true := h
          cases hr : kvs.lookup "roles" with
          | none => simp [pyContains, hr]
          | some v =>
              rw [hr] at h2
              cases v with
              | arr xs => simp [pyContains, pySubscript, pyIterate, hr]
              | null => exact Bool.noConfusion h2
              | bool b => exact Bool.noConfusion h2
              | num n => exact Bool.noConfusion h2
              | str s => exact Bool.noConfusion h2
              | obj kvs2 => exact Bool.noConfusion h2
      | null => exact Bool.noConfusion h
      | bool b => exact Bool.noConfusion h
      | num n => exact Bool.noConfusion h
      | str s => exact Bool.noConfusion h
      | arr xs => exact Bool.noConfusion h

theorem extractOkOfGood (t : TokenInfo) (h : goodRealmAccess t = true) :
    extract_user_info t = Except.ok
      ⟨extractUsername t, dictGet t "email", dictGet t "sub",
        rolesPerSpec t, groupsPerSpec t⟩ := by
  unfold extract_user_info
  rw [realmRolesStepOkOfGood t h]
  rfl

/-- Claim C1: on a well-formed introspection response whose active field
is false or missing, validate_token_with_keycloak fails with the
inactive-token validation error, that error differs from the error of
every transport failure, and query_backend_service then returns the
token_validation_failed envelope without issuing a backend call. -/
theorem validate_inactive_token_rejected (access_token : String) (cfg : ValidatorConfig)
    (kvs : TokenInfo) (backend_url endpoint : String) (bn : BackendNet)
    (htok : access_token ≠ "") (hurl : cfg.SSO_INTROSPECTION_URL ≠ "")
    (hactive : kvs.lookup "active" = none ∨ kvs.lookup "active" = some (Json.bool false)) :
    validate_token_with_keycloak access_token cfg (NetResult.response (Json.obj kvs)) =
      (Except.error "Token validation error: Token is not active or has expired", true) ∧
    (∀ m, (validate_token_with_keycloak access_token cfg (NetResult.httpError m)).1 ≠
      Except.error "Token validation error: Token is not active or has expired") ∧
    query_backend_service access_token backend_url endpoint cfg
        ⟨NetResult.response (Json.obj kvs), bn⟩ =
      (⟨"error", some "token_validation_failed",
        "Token validation error: Token is not active or has expired", none, none⟩, false) := by
  have hget : dictGetD kvs "active" (Json.bool false) = Json.bool false := by
    rcases hactive with h | h <;> simp [dictGetD, h]
  have hval : validate_token_with_keycloak access_token cfg
      (NetResult.response (Json.obj kvs)) =
      (Except.error "Token validation error: Token is not active or has expired", true) := by
    simp [validate_token_with_keycloak, htok, hurl, hget, Json.truthy]
  refine ⟨hval, ?_, ?_⟩
  · intro m h
    simp [validate_token_with_keycloak, htok, hurl] at h
    exact httpErrorMsgNeInactive m h
  · simp [query_backend_service, hval]

/-- Witness for claim C1 at a concrete inactive introspection response. -/
theorem validate_inactive_token_rejected_witness :
    (("tok" : String) ≠ "" ∧ cfgW.SSO_INTROSPECTION_URL ≠ "") ∧
    validate_token_with_keycloak "tok" cfgW
        (NetResult.response (Json.obj [("active", Json.bool false)])) =
      (Except.error "Token validation error: Token is not active or has expired", true) ∧
    query_backend_service "tok" "http://b" "/e" cfgW
        ⟨NetResult.response (Json.obj [("active", Json.bool false)]), BackendNet.timeout⟩ =
      (⟨"error", some "token_validation_failed",
        "Token validation error: Token is not active or has expired", none, none⟩, false) := by
  have h := validate_inactive_token_rejected "tok" cfgW [("active", Json.bool false)]
    "http://b" "/e" BackendNet.timeout (by decide) (by decide) (Or.inr rfl)
  exact ⟨⟨by decide, by decide⟩, h.1, h.2.2⟩

/-- Counterexample for claim C2: with the sub claim present but equal to
the empty string, none of the four claims is present and non-empty, yet
extract_user_info yields the empty string as username, not null. -/
theorem extract_username_empty_sub_cex :
    extract_user_info [("sub", Json.str "")] =
      Except.ok ⟨Json.str "", Json.null, Json.str "", [], []⟩ ∧
    Json.str "" ≠ Json.null :=
  ⟨rfl, fun h => nomatch h⟩

/-- Claim C2 (amended): whenever extract_user_info returns a record, its
username is the first truthy value among preferred_username, username,
email, sub in exactly that priority order, and otherwise the raw value
of the sub claim, which is null when sub is absent but may be an empty
or otherwise falsy present value. -/
theorem extract_username_priority_amended (t : TokenInfo) (u : UserInfo)
    (h : extract_user_info t = Except.ok u) :
    u.username = usernamePerSpecAmended t := by
  unfold extract_user_info at h
  cases hr : realmRolesStep t with
  | error m => rw [hr] at h; exact Except.noConfusion h
  | ok rl =>
      rw [hr] at h
      injection h with h2
      rw [← h2]
      rfl

/-- Witness for claim C2 at a record where the second-priority claim is
the first non-empty one. -/
theorem extract_username_priority_amended_witness :
    extract_user_info [("username", Json.str "bob"), ("email", Json.str "b@x")] =
      Except.ok ⟨Json.str "bob", Json.str "b@x", Json.null, [], []⟩ ∧
    (⟨Json.str "bob", Json.str "b@x", Json.null, [], []⟩ : UserInfo).username =
      usernamePerSpecAmended [("username", Json.str "bob"), ("email", Json.str "b@x")] :=
  ⟨rfl, extract_username_priority_amended _ _ rfl⟩

/-- Counterexample for claim C3: a non-mapping realm_access makes the
membership test raise a TypeError, so extract_user_info is not total on
all introspection-result mappings. -/
theorem extract_total_cex :
    extract_user_info [("realm_access", Json.num 42)] =
      Except.error typeErrorNotContainer := rfl

/-- Claim C3 (amended): extract_user_info performs no I/O and terminates
with a UserIdentity record on every introspection-result mapping whose
realm_access, when present, is a mapping whose roles entry, when
present, is a list; on other shapes of realm_access it can raise a
TypeError instead of returning. -/
theorem extract_total_amended (t : TokenInfo) (h : goodRealmAccess t = true) :
    ∃ u, extract_user_info t = Except.ok u :=
  ⟨_, extractOkOfGood t h⟩

/-- Witness for claim C3 at a well-shaped realm_access mapping. -/
theorem extract_total_amended_witness :
    goodRealmAccess [("realm_access", Json.obj [("roles", Json.arr [Json.str "admin"])])] = true ∧
    ∃ u, extract_user_info [("realm_access", Json.obj [("roles", Json.arr [Json.str "admin"])])] =
      Except.ok u :=
  ⟨rfl, extract_total_amended _ rfl⟩

/-- Claim C4: with an empty access token both validate_token_with_keycloak
and call_service fail immediately with the missing-token error, and the
network-request flag stays false whatever the network oracle would have
answered. -/
theorem empty_token_no_network :
    (∀ cfg net, validate_token_with_keycloak "" cfg net =
      (Except.error "Access token is required", false)) ∧
    (∀ client endpoint net, call_service client "" endpoint net =
      (Except.error "Access token is required", false)) :=
  ⟨fun _ _ => rfl, fun _ _ _ => rfl⟩

/-- Claim C5: call_service classifies every HTTP response in order: 401
gives the authentication error, which differs from every generic
at-least-400 error message; 403 gives the authorization error; any other
status of at least 400 gives the generic error carrying the status code
and the decoded-JSON or raw-text body; any other status decodes JSON and
falls back to the content wrapper on decode failure. -/
theorem call_service_status_classification (client : BackendServiceClient)
    (access_token endpoint : String) (r : HttpResponse) (h : access_token ≠ "") :
    (r.status_code = 401 → call_service client access_token endpoint (BackendNet.response r) =
      (Except.error "Backend service authentication failed - token may be invalid", true)) ∧
    (∀ st body, "Backend service authentication failed - token may be invalid" ≠
      genericErrorMsg st body) ∧
    (r.status_code = 403 → call_service client access_token endpoint (BackendNet.response r) =
      (Except.error "Backend service authorization failed - insufficient permissions", true)) ∧
    (r.status_code ≠ 401 → r.status_code ≠ 403 → 400 ≤ r.status_code →
      call_service client access_token endpoint (BackendNet.response r) =
      (Except.error (genericErrorMsg r.status_code
        (match r.jsonBody with
         | some j => pyStr j
         | none => r.text)), true)) ∧
    (r.status_code < 400 →
      call_service client access_token endpoint (BackendNet.response r) =
      (match r.jsonBody with
       | some j => (Except.ok j, true)
       | none => (Except.ok (Json.obj [("content", Json.str r.text),
           ("status_code", Json.num (r.status_code : Int))]), true))) := by
  refine ⟨?_, fun st body => authMsgNeGeneric st body, ?_, ?_, ?_⟩
  · intro h401
    simp [call_service, h, h401]
  · intro h403
    simp [call_service, h, h403]
  · intro h1 h2 h3
    simp [call_service, h, h1, h2, h3]
  · intro hlt
    have h1 : r.status_code ≠ 401 := by omega
    have h2 : r.status_code ≠ 403 := by omega
    have h3 : ¬ 400 ≤ r.status_code := by omega
    cases hb : r.jsonBody with
    | some j => simp [call_service, h, h1, h2, h3, hb]
    | none => simp [call_service, h, h1, h2, h3, hb]

/-- Witness for claim C5 at a concrete 401 response. -/
theorem call_service_status_classification_witness :
    ("tok" : String) ≠ "" ∧
    call_service ⟨"http://x", 30⟩ "tok" "/y" (BackendNet.response ⟨401, "", none⟩) =
      (Except.error "Backend service authentication failed - token may be invalid", true) := by
  have h : ("tok" : String) ≠ "" := by decide
  exact ⟨h, (call_service_status_classification ⟨"http://x", 30⟩ "tok" "/y" ⟨401, "", none⟩ h).1 rfl⟩

/-- Claim C6: the request URL built by the backend client is the base URL
with trailing slashes stripped, joined by exactly one slash to the
endpoint with leading slashes stripped; in particular base http://x/ and
endpoint /y give http://x/y, with that URL reaching call_service. -/
theorem request_url_join :
    (∀ base endpoint, (BackendServiceClient.init base).callUrl endpoint =
      joinUrlPerSpec base endpoint) ∧
    (BackendServiceClient.init "http://x/").callUrl "/y" = "http://x/y" ∧
    call_service (BackendServiceClient.init "http://x/") "tok" "/y" BackendNet.timeout =
      (Except.error "Backend service timeout: http://x/y", true) :=
  ⟨fun _ _ => rfl, by decide, rfl⟩

/-- Counterexample for claim C7: a realm_access mapping whose roles entry
is a number makes list.extend raise a TypeError, so no roles are
extracted at all for that introspection result. -/
theorem extract_roles_nonlist_cex :
    extract_user_info [("realm_access", Json.obj [("roles", Json.num 7)])] =
      Except.error typeErrorNotIterable := rfl

/-- Claim C7 (amended): when realm_access, if present, is a mapping whose
roles entry, if present, is a list, the extracted roles is the
concatenation of realm_access.roles with the top-level roles claim when
that claim is a list, a present non-list top-level roles claim being
ignored without error, and the extracted groups is the groups claim when
it is a list, else the empty list. -/
theorem extract_roles_groups_amended (t : TokenInfo) (h : goodRealmAccess t = true) :
    ∃ u, extract_user_info t = Except.ok u ∧
      u.roles = rolesPerSpec t ∧ u.groups = groupsPerSpec t :=
  ⟨_, extractOkOfGood t h, rfl, rfl⟩

/-- Witness for claim C7 at the spec example: realm roles admin, top
roles user, groups g. -/
theorem extract_roles_groups_amended_witness :
    goodRealmAccess [("realm_access", Json.obj [("roles", Json.arr [Json.str "admin"])]),
      ("roles", Json.arr [Json.str "user"]), ("groups", Json.arr [Json.str "g"])] = true ∧
    ∃ u, extract_user_info [("realm_access", Json.obj [("roles", Json.arr [Json.str "admin"])]),
        ("roles", Json.arr [Json.str "user"]), ("groups", Json.arr [Json.str "g"])] =
        Except.ok u ∧
      u.roles = rolesPerSpec [("realm_access", Json.obj [("roles", Json.arr [Json.str "admin"])]),
        ("roles", Json.arr [Json.str "user"]), ("groups", Json.arr [Json.str "g"])] ∧
      u.groups = groupsPerSpec [("realm_access", Json.obj [("roles", Json.arr [Json.str "admin"])]),
        ("roles", Json.arr [Json.str "user"]), ("groups", Json.arr [Json.str "g"])] :=
  ⟨rfl, extract_roles_groups_amended _ rfl⟩

/-- Claim C8: query_backend_service always returns an envelope whose
status is success or error, and every failure carries one of the three
error-kind tags; no exception escapes to the caller. -/
theorem query_envelope_total (access_token backend_url endpoint : String)
    (cfg : ValidatorConfig) (env : QueryEnv) :
    ((query_backend_service access_token backend_url endpoint cfg env).1.status = "success" ∧
      (query_backend_service access_token backend_url endpoint cfg env).1.error = none) ∨
    ((query_backend_service access_token backend_url endpoint cfg env).1.status = "error" ∧
      ((query_backend_service access_token backend_url endpoint cfg env).1.error =
          some "token_validation_failed" ∨
        (query_backend_service access_token backend_url endpoint cfg env).1.error =
          some "backend_service_failed" ∨
        (query_backend_service access_token backend_url endpoint cfg env).1.error =
          some "unexpected_error")) := by
  rcases hv : (validate_token_with_keycloak access_token cfg env.introspectionNet).1 with m | ti
  · exact Or.inr ⟨by simp [query_backend_service, hv],
      Or.inl (by simp [query_backend_service, hv])⟩
  · rcases he : extract_user_info ti with m | u
    · exact Or.inr ⟨by simp [query_backend_service, hv, he],
        Or.inr (Or.inr (by simp [query_backend_service, hv, he]))⟩
    · rcases hp : call_service (BackendServiceClient.init backend_url) access_token endpoint
          env.backendNet with ⟨res, issued⟩
      rcases res with m | r
      · exact Or.inr ⟨by simp [query_backend_service, hv, he, hp],
          Or.inr (Or.inl (by simp [query_backend_service, hv, he, hp]))⟩
      · exact Or.inl ⟨by simp [query_backend_service, hv, he, hp],
          by simp [query_backend_service, hv, he, hp]⟩

/-- Claim C9: on a backend failure after successful validation the
envelope carries the identity extracted in step 2 as its user entry; on
a validation failure the envelope has no user entry at all, rather than
a null one. -/
theorem query_user_field_asymmetry (access_token backend_url endpoint : String)
    (cfg : ValidatorConfig) (env : QueryEnv) :
    (∀ ti u m,
      (validate_token_with_keycloak access_token cfg env.introspectionNet).1 = Except.ok ti →
      extract_user_info ti = Except.ok u →
      (call_service (BackendServiceClient.init backend_url) access_token endpoint
          env.backendNet).1 = Except.error m →
      (query_backend_service access_token backend_url endpoint cfg env).1 =
        ⟨"error", some "backend_service_failed", m, some (some u), none⟩) ∧
    (∀ m,
      (validate_token_with_keycloak access_token cfg env.introspectionNet).1 = Except.error m →
      (query_backend_service access_token backend_url endpoint cfg env).1 =
        ⟨"error", some "token_validation_failed", m, none, none⟩) := by
  constructor
  · intro ti u m hv he hc
    rcases hp : call_service (BackendServiceClient.init backend_url) access_token endpoint
        env.backendNet with ⟨res, issued⟩
    rw [hp] at hc
    have hres : res = Except.error m := hc
    subst hres
    simp only [query_backend_service, hv, he, hp]
  · intro m hv
    simp only [query_backend_service, hv]

/-- Witness for claim C9 at a concrete run where validation succeeds and
the backend answers 500 with a non-JSON body. -/
theorem query_user_field_asymmetry_witness :
    (query_backend_service "tok" "http://b" "/e" cfgW envW).1 =
      ⟨"error", some "backend_service_failed", genericErrorMsg 500 "boom",
        some (some ⟨Json.null, Json.null, Json.null, [], []⟩), none⟩ :=
  (query_user_field_asymmetry "tok" "http://b" "/e" cfgW envW).1
    [("active", Json.bool true)] ⟨Json.null, Json.null, Json.null, [], []⟩
    (genericErrorMsg 500 "boom") rfl rfl rfl

/-- Claim C10: with an empty access token query_backend_service returns
the token_validation_failed envelope and never the backend_service_failed
one; the missing-token branch of the backend client is unreachable
through this entry point, no backend request being issued. -/
theorem query_empty_token_validation_failed (backend_url endpoint : String)
    (cfg : ValidatorConfig) (env : QueryEnv) :
    query_backend_service "" backend_url endpoint cfg env =
      (⟨"error", some "token_validation_failed", "Access token is required", none, none⟩,
        false) ∧
    (query_backend_service "" backend_url endpoint cfg env).1.error ≠
      some "backend_service_failed" := by
  refine ⟨rfl, fun h => ?_⟩
  have h2 : (some "token_validation_failed" : Option String) = some "backend_service_failed" := h
  simp at h2

end TokenPassthrough

